import Mathlib

/-!
Shallow embedding of the BioChem Explorer client-side paper repository:
the paper data model, the repository mutations of the App component
(save, remove, addTag, removeTag), the selection resolver, the tag filter
view, the identifier assignment and result shaping of the search service,
the search-session state transitions, and the persistence hook.
Each definition mirrors one function of the source.
-/

namespace BioChemExplorer

/-- Paper entity from the source type declarations: id, title, authors,
year (integer or null), abstract, tags. -/
structure Paper where
  id : String
  title : String
  authors : List String
  year : Option Int
  abstract : String
  tags : List String
  deriving DecidableEq, Repr

/-- Citation reference from the source type declarations: uri and title. -/
structure Source where
  uri : String
  title : String
  deriving DecidableEq, Repr

/-- Raw paper record as parsed from the external service response, before
the service shapes it into the internal Paper type: title, authors,
year (the schema declares it, but the shaping code tolerates absence),
abstract. -/
structure RawPaper where
  title : String
  authors : List String
  year : Option Int
  abstract : String
  deriving DecidableEq, Repr

/-- Rendering of the raw year value inside a template literal: a present
integer prints as its decimal form, the absent value prints as the literal
text null. -/
def yearString : Option Int → String
  | some y => toString y
  | none => "null"

/-- Identifier derivation from the shaping step of searchAcademicPapers:
the first 20 characters of the title, a hyphen, then the year rendering. -/
def assignId (title : String) (year : Option Int) : String :=
  title.take 20 ++ "-" ++ yearString year

/-- Year normalization from the shaping step: the expression
year or-else null maps a falsy year (absent, or the integer 0) to null
and keeps any other integer. -/
def normalizeYear : Option Int → Option Int
  | some y => if y = 0 then none else some y
  | none => none

/-- Shaping of one raw paper into the internal Paper type, as done in
searchAcademicPapers: spread the raw fields, stamp the derived id,
initialize tags to the empty sequence, normalize the year. -/
def shapePaper (r : RawPaper) : Paper :=
  { id := assignId r.title r.year
    title := r.title
    authors := r.authors
    year := normalizeYear r.year
    abstract := r.abstract
    tags := [] }

/-- Successful search payload returned by searchAcademicPapers. -/
structure SearchResult where
  summary : String
  papers : List Paper
  sources : List Source
  deriving DecidableEq, Repr

/-- Outcome of the external generateContent call, seen as data: a parsed
response (summary, raw papers, optional grounding web references), a
network failure, or a response whose text fails to parse as JSON. -/
inductive ApiOutcome where
  | ok (summary : String) (papers : List RawPaper) (chunks : List (Option Source))
  | networkFailure
  | parseFailure
  deriving DecidableEq, Repr

/-- Grounding source extraction from searchAcademicPapers: map each chunk
to its web reference and keep those with a truthy (nonempty) uri. -/
def extractSources (chunks : List (Option Source)) : List Source :=
  chunks.filterMap (fun c =>
    match c with
    | some w => if w.uri = "" then none else some w
    | none => none)

/-- Embedding of searchAcademicPapers: an empty (falsy) query short-circuits
to an empty successful result before the external collaborator is consulted;
otherwise the collaborator outcome is shaped into a SearchResult or mapped
to one of the two user-facing error messages. -/
def searchAcademicPapers (query : String) (outcome : ApiOutcome) :
    Except String SearchResult :=
  if query = "" then
    Except.ok { summary := "", papers := [], sources := [] }
  else
    match outcome with
    | ApiOutcome.ok summary papers chunks =>
        Except.ok { summary := summary
                    papers := papers.map shapePaper
                    sources := extractSources chunks }
    | ApiOutcome.networkFailure =>
        Except.error "Failed to fetch data from the AI service. Please check your connection and API key."
    | ApiOutcome.parseFailure =>
        Except.error "Failed to parse the data from the AI service. The format was invalid."

/-- Search-session slice of the App component state: isLoading, error,
summary, searchResults, sources. -/
structure SessionState where
  isLoading : Bool
  error : Option String
  summary : String
  searchResults : List Paper
  sources : List Source
  deriving DecidableEq, Repr

/-- Initial search-session state of the App component. -/
def initialSession : SessionState :=
  { isLoading := false, error := none, summary := "", searchResults := [], sources := [] }

/-- Resolution of one search round-trip: either the shaped success payload
or the error message thrown by the service. -/
inductive SearchOutcome where
  | fulfilled (summary : String) (papers : List Paper) (sources : List Source)
  | rejected (message : String)
  deriving DecidableEq, Repr

/-- Atomic session events of handleSearch. A start event is the synchronous
part of a handleSearch call before its await: set isLoading, clear error,
summary, results and sources. A resolve event is the continuation after the
await of the search identified by sid: write that search outcome into the
session and clear isLoading. The sid records which search a continuation
belongs to; handleSearch itself never consults it (there is no staleness
token in the source). -/
inductive SessionEvent where
  | start (sid : Nat)
  | resolve (sid : Nat) (o : SearchOutcome)
  deriving DecidableEq, Repr

/-- One session transition, following handleSearch line by line. -/
def sessionStep (s : SessionState) : SessionEvent → SessionState
  | SessionEvent.start _ =>
      { isLoading := true, error := none, summary := "", searchResults := [], sources := [] }
  | SessionEvent.resolve _ (SearchOutcome.fulfilled summary papers sources) =>
      { s with summary := summary, searchResults := papers, sources := sources,
               isLoading := false }
  | SessionEvent.resolve _ (SearchOutcome.rejected message) =>
      { s with error := some message, isLoading := false }

/-- Session state after an interleaving of search starts and resolutions. -/
def runSession (s : SessionState) (trace : List SessionEvent) : SessionState :=
  trace.foldl sessionStep s

/-- Lexicographic sort used by handleAddTag (the JavaScript default string
sort), embedded as insertion sort by the string order. -/
def sortTags (tags : List String) : List String :=
  tags.insertionSort (fun a b => a ≤ b)

/-- Repository effect of handleSavePaper: append the paper unless an entry
with the same id is already present (the savedPaperIds membership test). -/
def savePaper (paper : Paper) (repo : List Paper) : List Paper :=
  if repo.any (fun p => p.id == paper.id) then repo else repo ++ [paper]

/-- Repository effect of handleRemovePaper: keep the entries whose id
differs. -/
def removePaper (id : String) (repo : List Paper) : List Paper :=
  repo.filter (fun p => !(p.id == id))

/-- Membership query backed by the savedPaperIds index. -/
def containsPaper (id : String) (repo : List Paper) : Bool :=
  repo.any (fun p => p.id == id)

/-- Repository effect of handleAddTag: for the entry with the given id that
does not already contain the tag, append the tag and re-sort; every other
entry is returned unchanged. -/
def addTagRepo (id tag : String) (repo : List Paper) : List Paper :=
  repo.map (fun p =>
    if p.id == id && !(p.tags.contains tag) then
      { p with tags := sortTags (p.tags ++ [tag]) }
    else p)

/-- Repository effect of handleRemoveTag: for the entry with the given id,
filter the tag out of its tag sequence. -/
def removeTagRepo (id tag : String) (repo : List Paper) : List Paper :=
  repo.map (fun p =>
    if p.id == id then { p with tags := p.tags.filter (fun t => !(t == tag)) }
    else p)

/-- Selection resolution from handleSelectPaper: the first repository entry
with the candidate id if one exists (savedVersion), otherwise the candidate
itself (savedVersion or-else paper). -/
def resolvePaper (repo : List Paper) (candidate : Paper) : Paper :=
  match repo.find? (fun p => p.id == candidate.id) with
  | some savedVersion => savedVersion
  | none => candidate

/-- Filter view from the filteredSavedPapers memo: with no active tag the
saved sequence itself, otherwise the entries whose tags contain the active
tag. -/
def filteredSavedPapers (savedPapers : List Paper) (activeTag : Option String) :
    List Paper :=
  match activeTag with
  | none => savedPapers
  | some tag => savedPapers.filter (fun p => p.tags.contains tag)

/-- App state slice coupling the repository and the selection. -/
structure AppState where
  savedPapers : List Paper
  selectedPaper : Option Paper
  deriving DecidableEq, Repr

/-- Embedding of handleAddTag: update the repository through addTagRepo,
and when the selected paper carries the same id, independently append the
tag to the selection and re-sort, with no duplicate check (exactly as in
the source). -/
def handleAddTag (id tag : String) (s : AppState) : AppState :=
  { savedPapers := addTagRepo id tag s.savedPapers
    selectedPaper :=
      match s.selectedPaper with
      | some p =>
          if p.id == id then some { p with tags := sortTags (p.tags ++ [tag]) }
          else some p
      | none => none }

/-- Embedding of handleRemoveTag: update the repository through
removeTagRepo, and when the selected paper carries the same id, filter the
tag out of the selection tags. -/
def handleRemoveTag (id tag : String) (s : AppState) : AppState :=
  { savedPapers := removeTagRepo id tag s.savedPapers
    selectedPaper :=
      match s.selectedPaper with
      | some p =>
          if p.id == id then some { p with tags := p.tags.filter (fun t => !(t == tag)) }
          else some p
      | none => none }

/-- Embedding of handleSelectPaper: store the resolved paper as selection. -/
def handleSelectPaper (paper : Paper) (s : AppState) : AppState :=
  { s with selectedPaper := some (resolvePaper s.savedPapers paper) }

/-- One tag mutation on the repository. -/
inductive TagOp where
  | add (id tag : String)
  | remove (id tag : String)
  deriving DecidableEq, Repr

/-- Apply a finite sequence of tag mutations to the repository. -/
def applyTagOps (ops : List TagOp) (repo : List Paper) : List Paper :=
  ops.foldl (fun acc op =>
    match op with
    | TagOp.add id tag => addTagRepo id tag acc
    | TagOp.remove id tag => removeTagRepo id tag acc) repo

/-- Result of one setValue call of the useLocalStorage hook: the in-memory
state after the call, whether the durable write went through, and the error
propagated to the caller, if any. -/
structure SetOutcome (T : Type) where
  memory : T
  persisted : Bool
  propagated : Option String
  deriving Repr

/-- Embedding of useLocalStorage setValue: compute the value to store from
the updater, apply it to the in-memory state, then attempt the durable
write; a write failure is caught and logged, so it never reaches the
caller and never undoes the in-memory update (setStoredValue runs before
setItem inside the same try block). -/
def setValue {T : Type} (update : T → T) (current : T) (writeOk : Bool) :
    SetOutcome T :=
  let valueToStore := update current
  if writeOk then
    { memory := valueToStore, persisted := true, propagated := none }
  else
    { memory := valueToStore, persisted := false, propagated := none }

/-- Embedding of the useLocalStorage initializer: a missing stored item
yields the initial value; a stored item is parsed, and a parse failure is
caught and also yields the initial value. -/
def loadStoredValue {T : Type} (parse : String → Option T) (item : Option String)
    (initialValue : T) : T :=
  match item with
  | none => initialValue
  | some raw =>
      match parse raw with
      | some v => v
      | none => initialValue

/-- Concrete saved paper used to instantiate universally quantified
theorems. -/
def samplePaper : Paper :=
  { id := "CRISPR base editing -2021"
    title := "CRISPR base editing in human cells"
    authors := ["A. Researcher"]
    year := some 2021
    abstract := "A study."
    tags := ["gene"] }

/-- Concrete ephemeral candidate carrying the same id as samplePaper but no
tags, as a fresh search result would. -/
def sampleCandidate : Paper :=
  { samplePaper with tags := [], abstract := "A study, as returned by search." }

/-- Concrete candidate whose id matches no repository entry. -/
def unrelatedCandidate : Paper :=
  { id := "Protein folding land-2019"
    title := "Protein folding landscapes"
    authors := ["B. Researcher"]
    year := some 2019
    abstract := "Another study."
    tags := [] }

/-- Concrete well-formed repository with one saved paper. -/
def sampleRepo : List Paper := [samplePaper]

/-- Concrete tag-mutation script used to instantiate the tag invariant. -/
def sampleOps : List TagOp :=
  [TagOp.add samplePaper.id "zeta", TagOp.add samplePaper.id "gene",
   TagOp.remove samplePaper.id "gene", TagOp.add samplePaper.id "alpha"]

/-- Concrete raw paper sharing its 20-character title fragment and year
with rawPaperB while differing afterwards. -/
def rawPaperA : RawPaper :=
  { title := "Mechanisms of enzyme catalysis in solution"
    authors := ["A. Researcher"]
    year := some 2020
    abstract := "First study." }

/-- Concrete raw paper sharing its 20-character title fragment and year
with rawPaperA while differing afterwards. -/
def rawPaperB : RawPaper :=
  { title := "Mechanisms of enzyme inhibition by small molecules"
    authors := ["B. Researcher"]
    year := some 2020
    abstract := "Second study." }

/-- Concrete overlapping-search interleaving: a second search starts while
the first is pending, the second search resolves, then the stale first
response resolves last. -/
def staleTrace : List SessionEvent :=
  [SessionEvent.start 1, SessionEvent.start 2,
   SessionEvent.resolve 2 (SearchOutcome.fulfilled "newer summary" [] []),
   SessionEvent.resolve 1 (SearchOutcome.fulfilled "stale summary" [] [])]

/-- Concrete app state in which the saved sample paper is also the selected
paper, with identical tag sequences. -/
def syncedState : AppState :=
  { savedPapers := sampleRepo, selectedPaper := some samplePaper }

end BioChemExplorer

namespace BioChemExplorer

theorem sortTags_sorted (tags : List String) :
    (sortTags tags).Sorted (fun a b : String => a ≤ b) :=
  List.sorted_insertionSort _ tags

theorem sortTags_perm (tags : List String) : List.Perm (sortTags tags) tags :=
  List.perm_insertionSort _ tags

theorem addTagRepo_invariant (id tag : String) (repo : List Paper)
    (h : ∀ p ∈ repo, p.tags.Sorted (fun a b : String => a ≤ b) ∧ p.tags.Nodup) :
    ∀ p ∈ addTagRepo id tag repo,
      p.tags.Sorted (fun a b : String => a ≤ b) ∧ p.tags.Nodup := by
  intro p hp
  rw [addTagRepo, List.mem_map] at hp
  obtain ⟨q, hq, rfl⟩ := hp
  obtain ⟨hs, hn⟩ := h q hq
  by_cases hcond : (q.id == id && !(q.tags.contains tag)) = true
  · have htag : tag ∉ q.tags := by
      have := (Bool.and_eq_true _ _).mp hcond
      simpa using this.2
    simp only [hcond, if_true]
    refine ⟨sortTags_sorted _, ?_⟩
    refine (sortTags_perm _).nodup_iff.mpr ?_
    simp [List.nodup_append, hn, htag]
  · simp only [hcond, if_false]
    exact ⟨hs, hn⟩

theorem removeTagRepo_invariant (id tag : String) (repo : List Paper)
    (h : ∀ p ∈ repo, p.tags.Sorted (fun a b : String => a ≤ b) ∧ p.tags.Nodup) :
    ∀ p ∈ removeTagRepo id tag repo,
      p.tags.Sorted (fun a b : String => a ≤ b) ∧ p.tags.Nodup := by
  intro p hp
  rw [removeTagRepo, List.mem_map] at hp
  obtain ⟨q, hq, rfl⟩ := hp
  obtain ⟨hs, hn⟩ := h q hq
  by_cases hcond : (q.id == id) = true
  · simp only [hcond, if_true]
    exact ⟨hs.filter _, hn.filter _⟩
  · simp only [hcond, if_false]
    exact ⟨hs, hn⟩

/-- C3: starting from a repository in which every paper holds a sorted,
duplicate-free tag sequence, any finite sequence of addTag and removeTag
mutations leaves every paper with a sorted, duplicate-free tag sequence. -/
theorem applyTagOps_tag_invariant (ops : List TagOp) (repo : List Paper)
    (h : ∀ p ∈ repo, p.tags.Sorted (fun a b : String => a ≤ b) ∧ p.tags.Nodup) :
    ∀ p ∈ applyTagOps ops repo,
      p.tags.Sorted (fun a b : String => a ≤ b) ∧ p.tags.Nodup := by
  induction ops generalizing repo with
  | nil => exact h
  | cons op rest ih =>
      cases op with
      | add id tag =>
          exact ih (addTagRepo id tag repo) (addTagRepo_invariant id tag repo h)
      | remove id tag =>
          exact ih (removeTagRepo id tag repo) (removeTagRepo_invariant id tag repo h)

/-- Witness for applyTagOps_tag_invariant: the sample repository satisfies
the invariant and keeps it across the sample mutation script. -/
theorem applyTagOps_tag_invariant_witness :
    (∀ p ∈ sampleRepo, p.tags.Sorted (fun a b : String => a ≤ b) ∧ p.tags.Nodup) ∧
    (∀ p ∈ applyTagOps sampleOps sampleRepo,
      p.tags.Sorted (fun a b : String => a ≤ b) ∧ p.tags.Nodup) :=
  ⟨by decide, applyTagOps_tag_invariant sampleOps sampleRepo (by decide)⟩

/-- C4: handleSavePaper is idempotent and deduplicating on id: when an
entry with the same id is already present, saving is a no-op on the
repository sequence, and saving the same paper twice leaves the same
sequence as saving it once. -/
theorem savePaper_idempotent (repo : List Paper) (paper : Paper) :
    ((∃ q ∈ repo, q.id = paper.id) → savePaper paper repo = repo) ∧
    savePaper paper (savePaper paper repo) = savePaper paper repo := by
  constructor
  · rintro ⟨q, hq, hid⟩
    have hany : repo.any (fun p => p.id == paper.id) = true :=
      List.any_eq_true.mpr ⟨q, hq, by simp [hid]⟩
    simp [savePaper, hany]
  · by_cases hany : repo.any (fun p => p.id == paper.id) = true
    · simp [savePaper, hany]
    · simp [savePaper, hany, List.any_append]

/-- Witness for savePaper_idempotent: instantiated with the sample paper,
a repository already holding it, and the empty repository. -/
theorem savePaper_idempotent_witness :
    savePaper samplePaper sampleRepo = sampleRepo ∧
    savePaper samplePaper (savePaper samplePaper []) = savePaper samplePaper [] :=
  ⟨(savePaper_idempotent sampleRepo samplePaper).1 ⟨samplePaper, by simp [sampleRepo], rfl⟩,
   (savePaper_idempotent [] samplePaper).2⟩

/-- C5: the filter view with no active tag is the saved sequence itself
(the same sequence, not a copy), and with an active tag it is exactly the
subsequence of the saved sequence whose papers carry that tag, in original
order. -/
theorem filteredSavedPapers_correct (savedPapers : List Paper) (tag : String) :
    filteredSavedPapers savedPapers none = savedPapers ∧
    filteredSavedPapers savedPapers (some tag) =
      savedPapers.filter (fun p => p.tags.contains tag) ∧
    List.Sublist (filteredSavedPapers savedPapers (some tag)) savedPapers ∧
    (∀ p, p ∈ filteredSavedPapers savedPapers (some tag) ↔
      p ∈ savedPapers ∧ tag ∈ p.tags) := by
  refine ⟨rfl, rfl, List.filter_sublist _, fun p => ?_⟩
  simp [filteredSavedPapers, List.mem_filter]

/-- C6: the selection resolver returns a repository entry with the
candidate id whenever one exists and the candidate itself otherwise; after
removal of an id the membership query is false and resolution of any
candidate with that id returns the candidate unchanged. -/
theorem resolvePaper_contract (repo : List Paper) (candidate : Paper) :
    ((∃ p ∈ repo, p.id = candidate.id) →
      resolvePaper repo candidate ∈ repo ∧
      (resolvePaper repo candidate).id = candidate.id) ∧
    ((∀ p ∈ repo, p.id ≠ candidate.id) → resolvePaper repo candidate = candidate) ∧
    containsPaper candidate.id (removePaper candidate.id repo) = false ∧
    resolvePaper (removePaper candidate.id repo) candidate = candidate := by
  refine ⟨?_, ?_, ?_, ?_⟩
  · rintro ⟨p, hp, hid⟩
    cases hfind : repo.find? (fun q => q.id == candidate.id) with
    | none =>
        rw [List.find?_eq_none] at hfind
        exact absurd (by simp [hid]) (hfind p hp)
    | some saved =>
        have hmem := List.mem_of_find?_eq_some hfind
        have hpred := List.find?_some hfind
        simp only [beq_iff_eq] at hpred
        simp [resolvePaper, hfind, hmem, hpred]
  · intro h
    have hfind : repo.find? (fun q => q.id == candidate.id) = none :=
      List.find?_eq_none.mpr (fun p hp => by simp [h p hp])
    simp [resolvePaper, hfind]
  · simp [containsPaper, removePaper, List.any_eq_true, List.mem_filter]
  · have hfind :
        (removePaper candidate.id repo).find? (fun q => q.id == candidate.id) = none := by
      rw [List.find?_eq_none]
      intro p hp
      rw [removePaper, List.mem_filter] at hp
      simpa using hp.2
    simp [resolvePaper, hfind]

/-- Witness for resolvePaper_contract: resolving the ephemeral candidate
against the sample repository yields its saved version, and resolving the
unrelated candidate returns the candidate unchanged. -/
theorem resolvePaper_contract_witness :
    (resolvePaper sampleRepo sampleCandidate ∈ sampleRepo ∧
     (resolvePaper sampleRepo sampleCandidate).id = sampleCandidate.id) ∧
    resolvePaper sampleRepo unrelatedCandidate = unrelatedCandidate :=
  ⟨(resolvePaper_contract sampleRepo sampleCandidate).1
      ⟨samplePaper, by simp [sampleRepo], by decide⟩,
   (resolvePaper_contract sampleRepo unrelatedCandidate).2.1 (by decide)⟩

/-- C7: the identifier is a deterministic function of the 20-character
title fragment together with the year: two raw papers agreeing there
receive the same id, so saving the shaped papers one after the other
leaves exactly one repository entry; an absent year enters the fingerprint
as the literal text null. -/
theorem assignId_collision (r1 r2 : RawPaper)
    (htitle : r1.title.take 20 = r2.title.take 20) (hyear : r1.year = r2.year) :
    assignId r1.title r1.year = assignId r2.title r2.year ∧
    (shapePaper r1).id = (shapePaper r2).id ∧
    savePaper (shapePaper r2) (savePaper (shapePaper r1) []) =
      savePaper (shapePaper r1) [] ∧
    (savePaper (shapePaper r2) (savePaper (shapePaper r1) [])).length = 1 ∧
    assignId r1.title none = r1.title.take 20 ++ "-" ++ "null" := by
  have hid : assignId r1.title r1.year = assignId r2.title r2.year := by
    rw [assignId, assignId, htitle, hyear]
  have hid2 : (shapePaper r1).id = (shapePaper r2).id := hid
  have hsave1 : savePaper (shapePaper r1) [] = [shapePaper r1] := by
    simp [savePaper]
  have hsave2 : savePaper (shapePaper r2) [shapePaper r1] = [shapePaper r1] := by
    simp [savePaper, hid2]
  refine ⟨hid, hid2, ?_, ?_, rfl⟩
  · rw [hsave1, hsave2]
  · rw [hsave1, hsave2]
    rfl

set_option maxRecDepth 8192 in
/-- Witness for assignId_collision: the two concrete raw papers share the
fragment Mechanisms of enzyme and the year 2020, collide on id, and merge
into a single repository entry. -/
theorem assignId_collision_witness :
    assignId rawPaperA.title rawPaperA.year = assignId rawPaperB.title rawPaperB.year ∧
    (shapePaper rawPaperA).id = (shapePaper rawPaperB).id ∧
    savePaper (shapePaper rawPaperB) (savePaper (shapePaper rawPaperA) []) =
      savePaper (shapePaper rawPaperA) [] ∧
    (savePaper (shapePaper rawPaperB) (savePaper (shapePaper rawPaperA) [])).length = 1 ∧
    assignId rawPaperA.title none = rawPaperA.title.take 20 ++ "-" ++ "null" :=
  assignId_collision rawPaperA rawPaperB (by decide) rfl

/-- C8: a failed durable write is a soft failure: setValue applies the
updater to the in-memory state and propagates no error whatever the write
outcome, and in particular each repository mutation (save, remove, addTag,
removeTag) takes full in-memory effect when the write fails. -/
theorem setValue_soft_failure (repo : List Paper) (paper : Paper) (id tag : String) :
    (∀ (T : Type) (update : T → T) (current : T) (writeOk : Bool),
      (setValue update current writeOk).memory = update current ∧
      (setValue update current writeOk).propagated = none) ∧
    (setValue (savePaper paper) repo false).memory = savePaper paper repo ∧
    (setValue (removePaper id) repo false).memory = removePaper id repo ∧
    (setValue (addTagRepo id tag) repo false).memory = addTagRepo id tag repo ∧
    (setValue (removeTagRepo id tag) repo false).memory = removeTagRepo id tag repo ∧
    (setValue (savePaper paper) repo false).propagated = none := by
  refine ⟨fun T update current writeOk => ?_, rfl, rfl, rfl, rfl, rfl⟩
  cases writeOk <;> exact ⟨rfl, rfl⟩

/-- C9: the repository initializes to the empty sequence both when the
persisted item is absent and when parsing the persisted item fails. -/
theorem loadStoredValue_empty_fallback (parse : String → Option (List Paper))
    (raw : String) (hfail : parse raw = none) :
    loadStoredValue parse none ([] : List Paper) = [] ∧
    loadStoredValue parse (some raw) ([] : List Paper) = [] :=
  ⟨rfl, by simp [loadStoredValue, hfail]⟩

/-- Witness for loadStoredValue_empty_fallback: a parser rejecting every
input, applied to a corrupt persisted string. -/
theorem loadStoredValue_empty_fallback_witness :
    loadStoredValue (fun _ => (none : Option (List Paper))) none ([] : List Paper) = [] ∧
    loadStoredValue (fun _ => (none : Option (List Paper))) (some "corrupt")
      ([] : List Paper) = [] :=
  loadStoredValue_empty_fallback (fun _ => none) "corrupt" rfl

/-- C10: the empty query short-circuits to a successful empty result,
identically for every collaborator outcome (so the collaborator is never
consulted) and without error. -/
theorem searchAcademicPapers_empty_query :
    (∀ outcome, searchAcademicPapers "" outcome =
      Except.ok { summary := "", papers := [], sources := [] }) ∧
    (∀ o1 o2, searchAcademicPapers "" o1 = searchAcademicPapers "" o2) :=
  ⟨fun _ => rfl, fun _ _ => rfl⟩

/-- C1 counterexample: in the interleaving staleTrace the first search
resolves after the second search was started, yet the session ends showing
the first search summary instead of the second: the stale result is not
discarded by handleSearch. -/
theorem stale_search_result_not_discarded :
    (runSession initialSession staleTrace).summary = "stale summary" ∧
    (runSession initialSession staleTrace).summary ≠ "newer summary" := by
  exact ⟨rfl, by decide⟩

/-- C1 amended: handleSearch carries no staleness token, so the session
reflects whichever search resolves last, regardless of start order: after
any interleaving ending in a resolution, that resolution determines the
session payload (fulfilled case) or the error message (rejected case). -/
theorem session_last_resolution_wins (s : SessionState) (t : List SessionEvent)
    (sid : Nat) (summary : String) (papers : List Paper) (sources : List Source)
    (message : String) :
    (runSession s
      (t ++ [SessionEvent.resolve sid
        (SearchOutcome.fulfilled summary papers sources)])).summary = summary ∧
    (runSession s
      (t ++ [SessionEvent.resolve sid
        (SearchOutcome.fulfilled summary papers sources)])).searchResults = papers ∧
    (runSession s
      (t ++ [SessionEvent.resolve sid
        (SearchOutcome.fulfilled summary papers sources)])).sources = sources ∧
    (runSession s
      (t ++ [SessionEvent.resolve sid
        (SearchOutcome.rejected message)])).error = some message := by
  simp [runSession, List.foldl_append, sessionStep]

/-- C2: adding a tag that the repository entry already contains is a no-op
on the repository but appends a duplicate to the independently mutated
selection, so the selection diverges from the saved record: the duplicate
check of handleAddTag guards only the repository update in the source. -/
theorem handleAddTag_selection_divergence :
    ((handleAddTag samplePaper.id "gene" syncedState).savedPapers.map Paper.tags
        = [["gene"]]) ∧
    ((handleAddTag samplePaper.id "gene" syncedState).selectedPaper.map Paper.tags
        = some ["gene", "gene"]) ∧
    (handleAddTag samplePaper.id "gene" syncedState).selectedPaper.map Paper.tags ≠
      some (resolvePaper (handleAddTag samplePaper.id "gene" syncedState).savedPapers
        samplePaper).tags := by
  have hsort : sortTags ["gene", "gene"] = ["gene", "gene"] := by
    simp [sortTags, List.insertionSort, List.orderedInsert]
  refine ⟨?_, ?_, ?_⟩ <;>
    simp [handleAddTag, addTagRepo, syncedState, sampleRepo, samplePaper, hsort,
      resolvePaper, List.find?]

end BioChemExplorer
